import Mathlib

/-!
# Verification of the keyword ingestion and lifecycle logic

A shallow embedding of the keyword parsing, normalization, sorting,
selection, upload and retry logic of `KeywordsPage.tsx`
(`src/frontend/src/pages/Keywords/KeywordsPage.tsx`), together with the
`resetKeyword` API wrapper of `src/frontend/src/services/api.ts`.

Conventions of the embedding:
* JavaScript strings are Lean `String`s; an absent (`undefined`) string-valued
  field of a parsed CSV row is modelled by `""`, which is interchangeable with
  `undefined` in the source because every access goes through JavaScript
  truthiness (`x || y`), and both `""` and `undefined` are falsy.
* JavaScript numbers appearing as integers are `Int` (`parseInt` results),
  fractional ones are `Rat` (`parseFloat` results); `NaN` results are `none`.
* `x || y` on strings is `jsOr`; `e || undefined` on numbers is
  `orUndefinedInt` / `orUndefinedRat` (both `0` and `NaN` are falsy).
* External collaborators (the REST API) are passed in as explicit outcome
  arguments, and a handler's observable effects (which external requests
  it issues, the next component state) are returned as data.
-/

/-- The `Keyword` interface of `KeywordsPage.tsx`.  All fields except
`keyword` are optional in TypeScript; optional numeric fields are `Option`s,
optional string fields default to `""` (≡ `undefined`, both falsy),
`blog_generated` defaults to `false` (`undefined` and `false` are
interchangeable: every access is `!k.blog_generated` or a truthiness test),
and `created_at` is modelled as a numeric timestamp (the source computes
`new Date(k.created_at).getTime()`; records fetched from the store carry a
date, and the sorting claims are stated over such records). -/
structure Keyword where
  id : Nat := 0
  keyword : String := ""
  search_volume : Option Int := none
  category : String := ""
  keyword_difficulty : Option Rat := none
  status : String := ""
  blog_generated : Bool := false
  created_at : Nat := 0
deriving Repr, DecidableEq

/-- The `Store` interface of `KeywordsPage.tsx` (only `id` is used by the
handlers embedded here). -/
structure Store where
  id : Nat := 0
  store_name : String := ""
  shop_url : String := ""
  is_active : Bool := true
deriving Repr, DecidableEq

/-- JavaScript `a || b` for strings: `""` (and `undefined`, also modelled
as `""`) is falsy. -/
def jsOr (a b : String) : String :=
  if a = "" then b else a

/-- JavaScript `String.prototype.split` with a one-character separator,
on the character list of the string: every occurrence of `sep` separates
groups, empty groups are kept, and the empty string yields `[""]`. -/
def splitOnChar (sep : Char) : List Char → List (List Char)
  | [] => [[]]
  | c :: cs =>
      match splitOnChar sep cs, decide (c = sep) with
      | r, true => [] :: r
      | [], false => [[c]]
      | g :: gs, false => (c :: g) :: gs

/-- JavaScript `s.split(sep)` for a one-character separator. -/
def splitStr (sep : Char) (s : String) : List String :=
  (splitOnChar sep s.toList).map List.asString

/-- JavaScript `s.trim()`: strip leading and trailing whitespace. -/
def trimStr (s : String) : String :=
  ((s.toList.dropWhile Char.isWhitespace).reverse.dropWhile Char.isWhitespace).reverse.asString

/-- The numeric value of a list of decimal digit characters. -/
def digitsToNat (ds : List Char) : Nat :=
  ds.foldl (fun acc c => acc * 10 + (c.toNat - 48)) 0

/-- Models the JavaScript `parseInt` builtin on the decimal inputs this
code feeds it: skip leading whitespace, read an optional sign and then the
longest prefix of decimal digits; `none` models `NaN` (no digits).
(Hex prefixes and other radices never reach `parseInt` here.) -/
def parseIntJS (s : String) : Option Int :=
  let cs := s.toList.dropWhile Char.isWhitespace
  match cs with
  | '-' :: rest =>
      let ds := rest.takeWhile Char.isDigit
      if ds.isEmpty then none else some (-(digitsToNat ds : Int))
  | '+' :: rest =>
      let ds := rest.takeWhile Char.isDigit
      if ds.isEmpty then none else some ((digitsToNat ds : Int))
  | _ =>
      let ds := cs.takeWhile Char.isDigit
      if ds.isEmpty then none else some ((digitsToNat ds : Int))

/-- Unsigned part of `parseFloat`: longest prefix `digits [. digits]`,
`none` when there is no digit at all (`NaN`). -/
def parseFloatDigits (cs : List Char) : Option Rat :=
  let intDs := cs.takeWhile Char.isDigit
  let rest := cs.dropWhile Char.isDigit
  let fracDs := match rest with
    | '.' :: r => r.takeWhile Char.isDigit
    | _ => []
  if intDs.isEmpty && fracDs.isEmpty then none
  else some (mkRat (digitsToNat intDs * 10 ^ fracDs.length + digitsToNat fracDs) (10 ^ fracDs.length))

/-- Models the JavaScript `parseFloat` builtin on the plain decimal inputs
this code feeds it: skip leading whitespace, optional sign, longest decimal
prefix; `none` models `NaN`. (Exponents never reach `parseFloat` here.) -/
def parseFloatJS (s : String) : Option Rat :=
  let cs := s.toList.dropWhile Char.isWhitespace
  match cs with
  | '-' :: rest => (parseFloatDigits rest).map (fun q => -q)
  | '+' :: rest => parseFloatDigits rest
  | _ => parseFloatDigits cs

/-- JavaScript `e || undefined` where `e` is a `parseInt` result:
`0` and `NaN` are falsy and become `undefined`. -/
def orUndefinedInt (v : Option Int) : Option Int :=
  match v with
  | some n => if n = 0 then none else some n
  | none => none

/-- JavaScript `e || undefined` where `e` is a `parseFloat` result:
`0` and `NaN` are falsy and become `undefined`. -/
def orUndefinedRat (v : Option Rat) : Option Rat :=
  match v with
  | some q => if q = 0 then none else some q
  | none => none

/-- One line of the manual-input parser (`handleManualKeywords` body):
split the line on commas, trim every part, and build the record
`{ keyword: parts[0] || '', search_volume: parts[1] ? parseInt(parts[1]) || undefined : undefined,
   category: parts[2] || 'General', keyword_difficulty: parts[3] ? parseFloat(parts[3]) || undefined : undefined }`. -/
def parseManualLine (line : String) : Keyword :=
  let parts := (splitStr ',' line).map trimStr
  { keyword := jsOr (parts.getD 0 "") ""
    search_volume :=
      if parts.getD 1 "" = "" then none
      else orUndefinedInt (parseIntJS (parts.getD 1 ""))
    category := jsOr (parts.getD 2 "") "General"
    keyword_difficulty :=
      if parts.getD 3 "" = "" then none
      else orUndefinedRat (parseFloatJS (parts.getD 3 "")) }

/-- `handleManualKeywords` of `KeywordsPage.tsx`: `none` models the early
error return on blank input (`!manualKeywords.trim()`); otherwise the raw
text is split on newlines, the lines are trimmed, blank lines are dropped,
each remaining line is parsed with `parseManualLine`, and records with an
empty `keyword` are dropped.  The result is the batch stored into the
staging buffer (`setUploadedKeywords`). -/
def handleManualKeywords (manualKeywords : String) : Option (List Keyword) :=
  if trimStr manualKeywords = "" then none
  else
    let keywordLines :=
      ((splitStr '\n' manualKeywords).map trimStr).filter (fun line => line.length > 0)
    some ((keywordLines.map parseManualLine).filter (fun kw => kw.keyword.length > 0))

/-- A data row produced by `Papa.parse(file, { header: true })` in `onDrop`:
each recognized column is a string field, `""` standing for both an empty
cell and an absent column (interchangeable: every access is by
truthiness). -/
structure CsvRow where
  keyword : String := ""
  keywords : String := ""
  search_term : String := ""
  search_volume : String := ""
  volume : String := ""
  category : String := ""
  topic : String := ""
  keyword_difficulty : String := ""
  difficulty : String := ""
  kd : String := ""
deriving Repr, DecidableEq

/-- The row-processing core of `onDrop` in `KeywordsPage.tsx` (the
`complete` callback of `Papa.parse`): keep rows with a truthy
`keyword || keywords || search_term`, then map each row to
`{ keyword: row.keyword || row.keywords || row.search_term || '',
   search_volume: parseInt(row.search_volume || row.volume || '0') || undefined,
   category: row.category || row.topic || 'General',
   keyword_difficulty: parseFloat(row.keyword_difficulty || row.difficulty || row.kd || '0') || undefined }`. -/
def onDrop (rows : List CsvRow) : List Keyword :=
  (rows.filter (fun row => jsOr (jsOr row.keyword row.keywords) row.search_term ≠ "")).map
    (fun row =>
      { keyword := jsOr (jsOr (jsOr row.keyword row.keywords) row.search_term) ""
        search_volume :=
          orUndefinedInt (parseIntJS (jsOr (jsOr row.search_volume row.volume) "0"))
        category := jsOr (jsOr row.category row.topic) "General"
        keyword_difficulty :=
          orUndefinedRat (parseFloatJS
            (jsOr (jsOr (jsOr row.keyword_difficulty row.difficulty) row.kd) "0")) })

/-- The `statusPriority` object lookup in `loadKeywords`:
`{processing: 1, failed: 2, completed: 3, pending: 4}[status] || 99`
(an unrecognized status looks up `undefined`, which is falsy, giving 99). -/
def statusPriority (status : String) : Int :=
  if status = "processing" then 1
  else if status = "failed" then 2
  else if status = "completed" then 3
  else if status = "pending" then 4
  else 99

/-- `k.status === 'pending' && !k.blog_generated` — the "ungenerated"
test used by the sort comparator and by `eligibleKeywords`. -/
def isUngenerated (k : Keyword) : Bool :=
  k.status == "pending" && !k.blog_generated

/-- The comparator passed to `data.sort((a, b) => ...)` in `loadKeywords`:
ungenerated records first, then `createdAt` descending within the
ungenerated bucket, then status priority, then `createdAt` descending.
`new Date(x).getTime()` differences are modelled as `Int` differences of
the numeric timestamps. -/
def compareKeywords (a b : Keyword) : Int :=
  if isUngenerated a && !isUngenerated b then -1
  else if !isUngenerated a && isUngenerated b then 1
  else if isUngenerated a && isUngenerated b then
    (b.created_at : Int) - (a.created_at : Int)
  else if statusPriority a.status ≠ statusPriority b.status then
    statusPriority a.status - statusPriority b.status
  else
    (b.created_at : Int) - (a.created_at : Int)

/-- "`a` sorts no later than `b`" under the `loadKeywords` comparator. -/
def keywordLE (a b : Keyword) : Bool :=
  decide (compareKeywords a b ≤ 0)

/-- `data.sort(comparator)` in `loadKeywords`.  `Array.prototype.sort` is
required by ES2019 to be stable, and with a consistent comparator its
output is sorted with respect to it; both properties are captured by the
stable `List.mergeSort` on the comparator's `≤ 0` relation. -/
def sortKeywords (l : List Keyword) : List Keyword :=
  l.mergeSort keywordLE

/-- `handleSelectKeyword` of `KeywordsPage.tsx`: toggle one id in the
selection (`prev.includes(id) ? prev.filter(i => i !== id) : [...prev, id]`). -/
def handleSelectKeyword (prev : List Nat) (keywordId : Nat) : List Nat :=
  if prev.contains keywordId then prev.filter (fun i => i != keywordId)
  else prev ++ [keywordId]

/-- `keywords.filter(k => k.status === 'pending' && !k.blog_generated)` —
the eligible keywords, as computed inside `handleSelectAll`. -/
def eligibleKeywords (keywords : List Keyword) : List Keyword :=
  keywords.filter (fun k => k.status == "pending" && !k.blog_generated)

/-- `handleSelectAll` of `KeywordsPage.tsx`: if the current selection's
*length* equals the number of eligible keywords, clear the selection;
otherwise replace it with the ids of all eligible keywords. -/
def handleSelectAll (keywords : List Keyword) (selectedKeywords : List Nat) : List Nat :=
  if selectedKeywords.length = (eligibleKeywords keywords).length then []
  else (eligibleKeywords keywords).map (fun k => k.id)

/-- The body of a `blogsApi.generateBlogs({...})` call. -/
structure GenerateRequest where
  keyword_ids : List Nat
  store_id : Nat
  template_type : String
  auto_publish : Bool
deriving Repr, DecidableEq

/-- Observable effect of `handleGenerateBlogs`: either the early return
(no external call, no error raised) or a single generation request. -/
inductive GenerationOutcome where
  | noop : GenerationOutcome
  | requested : GenerateRequest → GenerationOutcome
deriving Repr, DecidableEq

/-- `handleGenerateBlogs` of `KeywordsPage.tsx`: `if (selectedKeywords.length
=== 0) return;` silently does nothing; otherwise one request is issued with
exactly the selected ids and the currently selected store id (`0` is the
initial "no store selected" state and is passed through unchecked). -/
def handleGenerateBlogs (selectedKeywords : List Nat) (selectedStore : Nat)
    (templateType : String) (autoPublish : Bool) : GenerationOutcome :=
  if selectedKeywords.length = 0 then .noop
  else .requested { keyword_ids := selectedKeywords, store_id := selectedStore,
                    template_type := templateType, auto_publish := autoPublish }

/-- `selectedStore || stores[0]?.id || 1` (used by both retry handlers):
`0` and `undefined` are falsy. -/
def fallbackStoreId (selectedStore : Nat) (stores : List Store) : Nat :=
  if selectedStore ≠ 0 then selectedStore
  else match stores.head? with
    | some s => if s.id ≠ 0 then s.id else 1
    | none => 1

/-- `handleRetryFailedKeywords` of `KeywordsPage.tsx`.  Returns the list of
ids for which an external reset call is issued, and the generation request
issued afterwards (if any).  `resetOutcome id` is the success of the
external `keywordsApi.resetKeyword(id)` call (a rejection is caught and
mapped to `false`).  If there are no failed keywords the handler returns at
once; if every reset fails it throws before requesting generation; otherwise
it requests generation for **all** originally failed ids (`keyword_ids:
failedIds`). -/
def handleRetryFailedKeywords (keywords : List Keyword) (resetOutcome : Nat → Bool)
    (selectedStore : Nat) (stores : List Store)
    (templateType : String) (autoPublish : Bool) :
    List Nat × Option GenerateRequest :=
  let failedKeywords := keywords.filter (fun k => k.status == "failed")
  if failedKeywords.length = 0 then ([], none)
  else
    let failedIds := failedKeywords.map (fun k => k.id)
    let successfulResets := ((failedIds.map resetOutcome).filter (fun b => b)).length
    if successfulResets = 0 then (failedIds, none)
    else
      (failedIds,
       some { keyword_ids := failedIds,
              store_id := fallbackStoreId selectedStore stores,
              template_type := templateType, auto_publish := autoPublish })

/-- Modelled from the spec: the backend handler of
`POST /api/keywords/{id}/reset` (reached through `keywordsApi.resetKeyword`
of `src/frontend/src/services/api.ts`, which turns a non-OK response into a
thrown error) is not among the sources; §6 specifies
`resetKeyword(id) -> ack, fails with ResetError if id unknown or not in
failed state`, and on success the keyword is forced back to `pending`. -/
def resetKeyword (db : List Keyword) (keywordId : Nat) : Except String Keyword :=
  match db.find? (fun k => k.id == keywordId) with
  | none => .error "ResetError"
  | some k =>
      if k.status == "failed" then .ok { k with status := "pending" }
      else .error "ResetError"

/-- `handleRetryIndividualKeyword` of `KeywordsPage.tsx`, composed with the
reset endpoint: if `resetKeyword` rejects, the `catch` block shows the error
and **no** generation request is issued; if it succeeds, one generation
request for exactly `[keywordId]` follows.  Returns (generation request
issued, error surfaced by the reset step). -/
def handleRetryIndividualKeyword (db : List Keyword) (keywordId : Nat)
    (selectedStore : Nat) (stores : List Store)
    (templateType : String) (autoPublish : Bool) :
    Option GenerateRequest × Option String :=
  match resetKeyword db keywordId with
  | .error e => (none, some e)
  | .ok _ =>
      (some { keyword_ids := [keywordId],
              store_id := fallbackStoreId selectedStore stores,
              template_type := templateType, auto_publish := autoPublish }, none)

/-- Observable effect of `handleUploadToBackend`: the upload requests
issued (each carrying the full batch of records submitted in that request),
the staging buffer (`uploadedKeywords`) after the handler, and whether the
handler ended in the error state. -/
structure UploadOutcome where
  requests : List (List Keyword)
  newBuffer : List Keyword
  isError : Bool
deriving Repr, DecidableEq

/-- `handleUploadToBackend` of `KeywordsPage.tsx`: an empty buffer is
rejected locally with no request; otherwise the whole buffer is serialized
(`Papa.unparse(uploadedKeywords)`) into a single file and submitted as one
`keywordsApi.uploadKeywords` request, and only on success is the buffer
cleared (`setUploadedKeywords([])`) — the `catch` branch leaves it
untouched.  `uploadResult` is the outcome of the external upload call. -/
def handleUploadToBackend (uploadedKeywords : List Keyword)
    (uploadResult : Except String Nat) : UploadOutcome :=
  if uploadedKeywords.length = 0 then
    { requests := [], newBuffer := uploadedKeywords, isError := true }
  else
    match uploadResult with
    | .ok _ => { requests := [uploadedKeywords], newBuffer := [], isError := false }
    | .error _ =>
        { requests := [uploadedKeywords], newBuffer := uploadedKeywords, isError := true }

/-- Keyword A of the spec's sort example: pending, not generated, created at `t = 1`. -/
def kwA : Keyword :=
  { id := 1, keyword := "A", status := "pending", blog_generated := false, created_at := 1 }

/-- Keyword B of the spec's sort example: pending, not generated, created at `t = 2`. -/
def kwB : Keyword :=
  { id := 2, keyword := "B", status := "pending", blog_generated := false, created_at := 2 }

/-- Keyword C of the spec's sort example: failed, created at `t = 0`. -/
def kwC : Keyword :=
  { id := 3, keyword := "C", status := "failed", created_at := 0 }

/-! ## Helper lemmas about the sort comparator -/

theorem compareKeywords_antisymm (a b : Keyword) :
    compareKeywords b a = -compareKeywords a b := by
  unfold compareKeywords
  rcases h1 : isUngenerated a <;> rcases h2 : isUngenerated b <;>
    simp [h1, h2] <;> (try split_ifs) <;> omega

theorem keywordLE_total (a b : Keyword) : keywordLE a b || keywordLE b a := by
  have h := compareKeywords_antisymm a b
  simp only [keywordLE, Bool.or_eq_true, decide_eq_true_eq]
  omega

theorem keywordLE_trans (a b c : Keyword) (hab : keywordLE a b) (hbc : keywordLE b c) :
    keywordLE a c := by
  simp only [keywordLE, decide_eq_true_eq] at hab hbc ⊢
  unfold compareKeywords at hab hbc ⊢
  rcases ha : isUngenerated a <;> rcases hb : isUngenerated b <;> rcases hc : isUngenerated c <;>
    simp [ha, hb, hc] at hab hbc ⊢ <;> (try split_ifs at hab hbc ⊢) <;> omega

theorem sortKeywords_perm (l : List Keyword) : (sortKeywords l).Perm l :=
  List.mergeSort_perm l keywordLE

theorem sortKeywords_sorted (l : List Keyword) :
    (sortKeywords l).Pairwise (fun a b => keywordLE a b = true) := by
  have h := List.sorted_mergeSort (α := Keyword) keywordLE_trans keywordLE_total l
  simpa [sortKeywords] using h

theorem sortKeywords_idem (l : List Keyword) :
    sortKeywords (sortKeywords l) = sortKeywords l := by
  have h := sortKeywords_sorted l
  simpa [sortKeywords] using List.mergeSort_of_sorted h

theorem keywordLE_ungen_first (a b : Keyword)
    (ha : isUngenerated a = true) (hb : isUngenerated b = false) :
    keywordLE a b = true ∧ keywordLE b a = false := by
  simp [keywordLE, compareKeywords, ha, hb]

theorem keywordLE_both_ungen (a b : Keyword)
    (ha : isUngenerated a = true) (hb : isUngenerated b = true) :
    (keywordLE a b = true ↔ b.created_at ≤ a.created_at) := by
  simp only [keywordLE, compareKeywords, ha, hb, decide_eq_true_eq]
  norm_num

theorem keywordLE_both_generated (a b : Keyword)
    (ha : isUngenerated a = false) (hb : isUngenerated b = false) :
    (keywordLE a b = true ↔
      (statusPriority a.status < statusPriority b.status ∨
       (statusPriority a.status = statusPriority b.status ∧
        b.created_at ≤ a.created_at))) := by
  simp only [keywordLE, compareKeywords, ha, hb, decide_eq_true_eq]
  norm_num
  split_ifs <;> omega

/-! ## Helper lemmas about the parsers -/

theorem orUndefinedInt_ne_some_zero (v : Option Int) : orUndefinedInt v ≠ some 0 := by
  unfold orUndefinedInt
  rcases v with _ | n
  · simp
  · dsimp only
    split_ifs with h <;> simp [h]

theorem orUndefinedRat_ne_some_zero (v : Option Rat) : orUndefinedRat v ≠ some 0 := by
  unfold orUndefinedRat
  rcases v with _ | q
  · simp
  · dsimp only
    split_ifs with h <;> simp [h]

theorem parseManualLine_search_volume (line : String) :
    (parseManualLine line).search_volume ≠ some 0 := by
  unfold parseManualLine
  dsimp only
  split_ifs
  · simp
  · exact orUndefinedInt_ne_some_zero _

theorem parseManualLine_difficulty (line : String) :
    (parseManualLine line).keyword_difficulty ≠ some 0 := by
  unfold parseManualLine
  dsimp only
  split_ifs
  · simp
  · exact orUndefinedRat_ne_some_zero _

theorem parseManualLine_category_ne (line : String) :
    (parseManualLine line).category ≠ "" := by
  unfold parseManualLine jsOr
  dsimp only
  split_ifs with h
  · simp
  · exact h

theorem handleManualKeywords_eq_some (raw : String) (batch : List Keyword)
    (h : handleManualKeywords raw = some batch) :
    batch = ((((splitStr '\n' raw).map trimStr).filter (fun line => line.length > 0)).map
        parseManualLine).filter (fun kw => kw.keyword.length > 0) := by
  unfold handleManualKeywords at h
  split_ifs at h
  all_goals (cases h; try rfl)

theorem length_filter_map_filter {α β : Type} (f : α → β) (p : α → Bool) (q : β → Bool)
    (l : List α) :
    (((l.filter p).map f).filter q).length = (l.filter (fun a => p a && q (f a))).length := by
  induction l with
  | nil => rfl
  | cons x xs ih => by_cases hp : p x <;> by_cases hq : q (f x) <;> simp [hp, hq, ih]

theorem resets_all_failed_iff (ids : List Nat) (f : Nat → Bool) :
    ((ids.map f).filter (fun b => b)).length = 0 ↔
      ∀ keywordId ∈ ids, f keywordId = false := by
  simp [List.length_eq_zero, List.filter_eq_nil_iff]

/-! ## The claims -/

/-- C1, counterexample: parsing the raw input `"CBD oil\nCBD OIL, 500"` does
**not** yield exactly one record — `handleManualKeywords` performs no
deduplication, so it yields two records, the second keeping `"CBD OIL"`
with search volume 500. -/
theorem C1_counterexample_two_records :
    handleManualKeywords "CBD oil\nCBD OIL, 500" =
      some [{ keyword := "CBD oil", category := "General" },
            { keyword := "CBD OIL", search_volume := some 500, category := "General" }] ∧
    (handleManualKeywords "CBD oil\nCBD OIL, 500").map (fun batch => batch.length) ≠ some 1 := by
  decide

/-- C1, amended: parsing/normalization does not deduplicate at all — every
nonblank line whose trimmed first comma-field is nonempty yields its own
record, case-insensitive duplicates included, so the batch length is the
number of such lines; in particular `"CBD oil\nCBD OIL, 500"` yields two
records, the first being `CBD oil` with no volume (as the claim describes)
and the later duplicate being retained with its own data rather than
discarded. -/
theorem C1_amended_no_dedup :
    (∀ raw batch, handleManualKeywords raw = some batch →
      batch.length = (((splitStr '\n' raw).map trimStr).filter
        (fun line => line.length > 0 && (parseManualLine line).keyword.length > 0)).length) ∧
    handleManualKeywords "CBD oil\nCBD OIL, 500" =
      some [{ keyword := "CBD oil", category := "General" },
            { keyword := "CBD OIL", search_volume := some 500, category := "General" }] := by
  constructor
  · intro raw batch h
    rw [handleManualKeywords_eq_some raw batch h]
    exact length_filter_map_filter parseManualLine _ _ _
  · decide

/-- C1 witness: the amended length law evaluated on the duplicate input. -/
theorem C1_amended_witness :
    ([{ keyword := "CBD oil", category := "General" },
      { keyword := "CBD OIL", search_volume := some 500, category := "General" }] :
        List Keyword).length =
      (((splitStr '\n' "CBD oil\nCBD OIL, 500").map trimStr).filter
        (fun line => line.length > 0 && (parseManualLine line).keyword.length > 0)).length :=
  C1_amended_no_dedup.1 "CBD oil\nCBD OIL, 500"
    [{ keyword := "CBD oil", category := "General" },
     { keyword := "CBD OIL", search_volume := some 500, category := "General" }] (by decide)

/-- C2, counterexample: with two failed keywords (ids 1 and 2) where only
id 1 resets successfully, `handleRetryFailedKeywords` still issues the
batch generation request for **both** ids — not only for the
successfully-reset subset. -/
theorem C2_counterexample_all_ids_requested :
    (handleRetryFailedKeywords
        [{ id := 1, status := "failed" }, { id := 2, status := "failed" }]
        (fun keywordId => keywordId == 1) 3 [] "ecommerce_general" false).2 =
      some { keyword_ids := [1, 2], store_id := 3,
             template_type := "ecommerce_general", auto_publish := false } ∧
    (fun keywordId => keywordId == 1) 2 = false := by
  decide

/-- C2, amended: `retryAllFailed` resets every currently failed keyword
best-effort; if **no** reset succeeds it makes no generation request, but
whenever at least one reset succeeds it issues the batch generation request
for **all** originally failed ids (including those whose reset failed), not
only for the successfully-reset subset. -/
theorem C2_amended_retryAllFailed :
    ∀ (keywords : List Keyword) (resetOutcome : Nat → Bool) (selectedStore : Nat)
      (stores : List Store) (templateType : String) (autoPublish : Bool),
      (handleRetryFailedKeywords keywords resetOutcome selectedStore stores
          templateType autoPublish).1 =
        (keywords.filter (fun k => k.status == "failed")).map (fun k => k.id) ∧
      ((handleRetryFailedKeywords keywords resetOutcome selectedStore stores
          templateType autoPublish).2 = none ↔
        ∀ keywordId ∈ (keywords.filter (fun k => k.status == "failed")).map (fun k => k.id),
          resetOutcome keywordId = false) ∧
      (∀ req, (handleRetryFailedKeywords keywords resetOutcome selectedStore stores
          templateType autoPublish).2 = some req →
        req.keyword_ids =
          (keywords.filter (fun k => k.status == "failed")).map (fun k => k.id) ∧
        req.store_id = fallbackStoreId selectedStore stores ∧
        req.template_type = templateType ∧ req.auto_publish = autoPublish) := by
  intro keywords f st stores tt ap
  unfold handleRetryFailedKeywords
  dsimp only
  split_ifs with h0 hr
  · have hnil : keywords.filter (fun k => k.status == "failed") = [] :=
      List.length_eq_zero.mp h0
    refine ⟨by simp [hnil], ?_, ?_⟩
    · constructor
      · intro _
        simp [hnil]
      · intro _
        rfl
    · intro req hreq
      cases hreq
  · refine ⟨rfl, ?_, ?_⟩
    · constructor
      · intro _
        exact (resets_all_failed_iff _ f).mp hr
      · intro _
        rfl
    · intro req hreq
      cases hreq
  · refine ⟨rfl, ?_, ?_⟩
    · constructor
      · intro h
        cases h
      · intro hall
        exact absurd ((resets_all_failed_iff _ f).mpr hall) hr
    · intro req hreq
      cases hreq
      exact ⟨rfl, rfl, rfl, rfl⟩

/-- C2 witness: the amended law evaluated on a single failed keyword whose
reset succeeds. -/
theorem C2_amended_witness :
    ({ keyword_ids := [1], store_id := 2, template_type := "t", auto_publish := false } :
        GenerateRequest).keyword_ids =
      ([({ id := 1, status := "failed" } : Keyword)].filter
          (fun k => k.status == "failed")).map (fun k => k.id) ∧
    ({ keyword_ids := [1], store_id := 2, template_type := "t", auto_publish := false } :
        GenerateRequest).store_id = fallbackStoreId 2 [] ∧
    ({ keyword_ids := [1], store_id := 2, template_type := "t", auto_publish := false } :
        GenerateRequest).template_type = "t" ∧
    ({ keyword_ids := [1], store_id := 2, template_type := "t", auto_publish := false } :
        GenerateRequest).auto_publish = false :=
  (C2_amended_retryAllFailed [{ id := 1, status := "failed" }] (fun _ => true) 2 [] "t"
      false).2.2
    { keyword_ids := [1], store_id := 2, template_type := "t", auto_publish := false }
    (by decide)

/-- C4, counterexample: with an empty id set `handleGenerateBlogs` silently
returns — no external call and no `GenerationRequestError`; and with the
store unset (`selectedStore = 0`) but a nonempty id set, the external
generation call **is** issued (with store id 0), instead of failing
locally. -/
theorem C4_counterexample_no_error :
    handleGenerateBlogs [] 1 "ecommerce_general" false = .noop ∧
    handleGenerateBlogs [7] 0 "ecommerce_general" false =
      .requested { keyword_ids := [7], store_id := 0,
                   template_type := "ecommerce_general", auto_publish := false } := by
  decide

/-- C4, amended: when the id set is empty, `requestGeneration` performs a
silent no-op — no external call and no error of any kind; it never
validates the store: with a nonempty id set it always issues exactly one
external generation call carrying the selected ids and whatever store id is
set (including the unset sentinel 0). -/
theorem C4_amended_generation_guard :
    ∀ (selectedKeywords : List Nat) (selectedStore : Nat) (templateType : String)
      (autoPublish : Bool),
      (selectedKeywords = [] →
        handleGenerateBlogs selectedKeywords selectedStore templateType autoPublish = .noop) ∧
      (selectedKeywords ≠ [] →
        handleGenerateBlogs selectedKeywords selectedStore templateType autoPublish =
          .requested { keyword_ids := selectedKeywords, store_id := selectedStore,
                       template_type := templateType, auto_publish := autoPublish }) := by
  intro sel st tt ap
  constructor
  · intro h; simp [handleGenerateBlogs, h]
  · intro h; simp [handleGenerateBlogs, List.length_eq_zero, h]

/-- C4 witness: the amended law evaluated at an empty and a nonempty
selection. -/
theorem C4_amended_witness :
    handleGenerateBlogs [] 0 "ecommerce_general" false = .noop :=
  (C4_amended_generation_guard [] 0 "ecommerce_general" false).1 rfl

/-- C3: `listSorted` orders keywords by the documented policy — the output
is a permutation of the input, pairwise ordered by the comparator relation
`keywordLE`; `keywordLE` puts every pending-and-ungenerated record strictly
before every other record, orders two ungenerated records by `createdAt`
descending, and orders two non-ungenerated records by status priority
`processing(1) < failed(2) < completed(3) < pending-but-generated(4) <
other(99)` with ties broken by `createdAt` descending; on the spec's
example A(pending, not generated, t=1), B(pending, not generated, t=2),
C(failed, t=0) the result is [B, A, C]. -/
theorem C3_listSorted_policy :
    (∀ l : List Keyword, (sortKeywords l).Perm l) ∧
    (∀ l : List Keyword, (sortKeywords l).Pairwise (fun a b => keywordLE a b = true)) ∧
    (∀ a b : Keyword, isUngenerated a = true → isUngenerated b = false →
      keywordLE a b = true ∧ keywordLE b a = false) ∧
    (∀ a b : Keyword, isUngenerated a = true → isUngenerated b = true →
      (keywordLE a b = true ↔ b.created_at ≤ a.created_at)) ∧
    (∀ a b : Keyword, isUngenerated a = false → isUngenerated b = false →
      (keywordLE a b = true ↔
        (statusPriority a.status < statusPriority b.status ∨
         (statusPriority a.status = statusPriority b.status ∧
          b.created_at ≤ a.created_at)))) ∧
    statusPriority "processing" = 1 ∧ statusPriority "failed" = 2 ∧
    statusPriority "completed" = 3 ∧ statusPriority "pending" = 4 ∧
    (∀ s : String, s ≠ "processing" → s ≠ "failed" → s ≠ "completed" → s ≠ "pending" →
      statusPriority s = 99) ∧
    sortKeywords [kwA, kwB, kwC] = [kwB, kwA, kwC] := by
  refine ⟨sortKeywords_perm, sortKeywords_sorted, keywordLE_ungen_first,
    keywordLE_both_ungen, keywordLE_both_generated, by decide, by decide, by decide,
    by decide, ?_, ?_⟩
  · intro s h1 h2 h3 h4
    simp [statusPriority, h1, h2, h3, h4]
  · simp [sortKeywords, List.mergeSort, List.splitInTwo, List.merge, keywordLE,
      compareKeywords, isUngenerated, statusPriority, kwA, kwB, kwC]

/-- C3 witness: the comparator laws evaluated on the spec's example records
(the ungenerated A before the failed C, and B before A by recency). -/
theorem C3_witness :
    (keywordLE kwA kwC = true ∧ keywordLE kwC kwA = false) ∧
    (keywordLE kwB kwA = true ↔ kwA.created_at ≤ kwB.created_at) :=
  ⟨C3_listSorted_policy.2.2.1 kwA kwC (by decide) (by decide),
   C3_listSorted_policy.2.2.2.1 kwB kwA (by decide) (by decide)⟩

/-- C5: for a keyword id that is unknown or whose status is not `failed`,
the reset endpoint (spec-modelled) rejects with a `ResetError`, the
`catch` block of `handleRetryIndividualKeyword` surfaces it, and no
generation request is issued for that id. -/
theorem C5_retry_nonfailed_rejects :
    ∀ (db : List Keyword) (keywordId selectedStore : Nat) (stores : List Store)
      (templateType : String) (autoPublish : Bool),
      (∀ k ∈ db, k.id = keywordId → k.status ≠ "failed") →
      handleRetryIndividualKeyword db keywordId selectedStore stores
          templateType autoPublish =
        (none, some "ResetError") := by
  intro db keywordId st stores tt ap h
  unfold handleRetryIndividualKeyword resetKeyword
  cases hf : db.find? (fun k => k.id == keywordId) with
  | none => rfl
  | some k =>
      have hk := List.mem_of_find?_eq_some hf
      have hid := List.find?_some hf
      simp only [beq_iff_eq] at hid
      have hs : (k.status == "failed") = false := by
        simpa using h k hk hid
      simp [hs]

/-- C5 witness: the law evaluated on a one-element store with a completed
keyword. -/
theorem C5_witness :
    handleRetryIndividualKeyword [{ id := 1, status := "completed" }] 1 0 [] "t" false =
      (none, some "ResetError") :=
  C5_retry_nonfailed_rejects [{ id := 1, status := "completed" }] 1 0 [] "t" false
    (by decide)

/-- C6: committing the staging buffer submits the whole buffer as one
request (every request issued carries exactly the buffered records); a
failed upload leaves the buffer unchanged for resubmission, and a
successful upload of a nonempty buffer clears it. -/
theorem C6_upload_commit :
    ∀ (uploadedKeywords : List Keyword) (uploadResult : Except String Nat),
      (∀ req ∈ (handleUploadToBackend uploadedKeywords uploadResult).requests,
        req = uploadedKeywords) ∧
      (∀ e, uploadResult = .error e →
        (handleUploadToBackend uploadedKeywords uploadResult).newBuffer =
          uploadedKeywords) ∧
      (uploadedKeywords ≠ [] → ∀ n, uploadResult = .ok n →
        (handleUploadToBackend uploadedKeywords uploadResult).requests =
            [uploadedKeywords] ∧
        (handleUploadToBackend uploadedKeywords uploadResult).newBuffer = []) := by
  intro buf res
  unfold handleUploadToBackend
  rcases res with e | n <;> split_ifs with h <;>
    simp_all

/-- C6 witness: a failed upload of a one-record buffer leaves the buffer
intact. -/
theorem C6_witness :
    (handleUploadToBackend [kwA] (Except.error "network")).newBuffer = [kwA] :=
  (C6_upload_commit [kwA] (Except.error "network")).2.1 "network" rfl

/-- C7: for every raw line-delimited input accepted by the handler, every
record of the resulting batch has nonempty `text` and a nonempty
`category`, the `category` of a parsed line defaults to "General" when the
third comma-field is absent or empty, and the batch length is at most the
number of input lines. -/
theorem C7_normalized_batch :
    ∀ raw batch, handleManualKeywords raw = some batch →
      (∀ r ∈ batch, r.keyword ≠ "" ∧ r.category ≠ "") ∧
      batch.length ≤ (splitStr '\n' raw).length ∧
      (∀ line : String, ((splitStr ',' line).map trimStr).getD 2 "" = "" →
        (parseManualLine line).category = "General") := by
  intro raw batch h
  have hb := handleManualKeywords_eq_some raw batch h
  refine ⟨?_, ?_, ?_⟩
  · intro r hr
    rw [hb] at hr
    have hr' := List.mem_filter.mp hr
    rcases List.mem_map.mp hr'.1 with ⟨line, _, hline⟩
    constructor
    · intro he
      have := hr'.2
      rw [he] at this
      simp at this
    · rw [← hline]
      exact parseManualLine_category_ne line
  · rw [hb]
    calc (((((splitStr '\n' raw).map trimStr).filter
            (fun line => line.length > 0)).map parseManualLine).filter
            (fun kw => kw.keyword.length > 0)).length
        ≤ ((((splitStr '\n' raw).map trimStr).filter
            (fun line => line.length > 0)).map parseManualLine).length :=
          List.length_filter_le _ _
      _ = (((splitStr '\n' raw).map trimStr).filter
            (fun line => line.length > 0)).length := List.length_map _ _
      _ ≤ ((splitStr '\n' raw).map trimStr).length := List.length_filter_le _ _
      _ = (splitStr '\n' raw).length := List.length_map _ _
  · intro line hline
    unfold parseManualLine
    dsimp only
    simp only [jsOr]
    rw [if_pos hline]

/-- C7 witness: the guarantees evaluated on the two-line duplicate input. -/
theorem C7_witness :
    ([{ keyword := "CBD oil", category := "General" },
      { keyword := "CBD OIL", search_volume := some 500, category := "General" }] :
        List Keyword).length ≤ (splitStr '\n' "CBD oil\nCBD OIL, 500").length :=
  (C7_normalized_batch "CBD oil\nCBD OIL, 500"
    [{ keyword := "CBD oil", category := "General" },
     { keyword := "CBD OIL", search_volume := some 500, category := "General" }]
    (by decide)).2.1

/-- C8: `listSorted` is pure and deterministic — it is a function of the
underlying list alone (equal inputs give equal orderings), and re-sorting
an already sorted list returns it unchanged, so calling it twice without an
intervening mutation returns the identical ordering. -/
theorem C8_listSorted_deterministic :
    (∀ l₁ l₂ : List Keyword, l₁ = l₂ → sortKeywords l₁ = sortKeywords l₂) ∧
    (∀ l : List Keyword, sortKeywords (sortKeywords l) = sortKeywords l) :=
  ⟨fun _ _ h => by rw [h], sortKeywords_idem⟩

/-- C8 witness: determinism evaluated on the spec's example list. -/
theorem C8_witness :
    sortKeywords [kwA, kwB, kwC] = sortKeywords [kwA, kwB, kwC] :=
  C8_listSorted_deterministic.1 [kwA, kwB, kwC] [kwA, kwB, kwC] rfl

/-- C9: in both parsing modes a numeric field parsed as 0 is coerced to
absent — no produced record has `search_volume = some 0` or
`keyword_difficulty = some 0`; in particular the manual line
`"kw,0,Cat,0"` yields one record with no volume and no difficulty. -/
theorem C9_zero_numeric_absent :
    (∀ raw batch, handleManualKeywords raw = some batch →
      ∀ r ∈ batch, r.search_volume ≠ some 0 ∧ r.keyword_difficulty ≠ some 0) ∧
    (∀ rows : List CsvRow, ∀ r ∈ onDrop rows,
      r.search_volume ≠ some 0 ∧ r.keyword_difficulty ≠ some 0) ∧
    handleManualKeywords "kw,0,Cat,0" =
      some [{ keyword := "kw", category := "Cat" }] := by
  refine ⟨?_, ?_, by decide⟩
  · intro raw batch h r hr
    rw [handleManualKeywords_eq_some raw batch h] at hr
    rcases List.mem_map.mp (List.mem_filter.mp hr).1 with ⟨line, _, hline⟩
    rw [← hline]
    exact ⟨parseManualLine_search_volume line, parseManualLine_difficulty line⟩
  · intro rows r hr
    unfold onDrop at hr
    rcases List.mem_map.mp hr with ⟨row, _, hrow⟩
    rw [← hrow]
    exact ⟨orUndefinedInt_ne_some_zero _, orUndefinedRat_ne_some_zero _⟩

/-- C9 witness: the no-zero law evaluated on the record parsed from
`"kw,0,Cat,0"`. -/
theorem C9_witness :
    ({ keyword := "kw", category := "Cat" } : Keyword).search_volume ≠ some 0 ∧
    ({ keyword := "kw", category := "Cat" } : Keyword).keyword_difficulty ≠ some 0 :=
  C9_zero_numeric_absent.1 "kw,0,Cat,0" [{ keyword := "kw", category := "Cat" }]
    (by decide) { keyword := "kw", category := "Cat" } (by decide)

/-- C10: `selectAll` toggles on counts, not set equality — whenever the
selection's size equals the number of eligible keywords it clears the
selection (even when the selected ids are not the eligible ones, as in the
concrete instance with selection [100, 200] against eligible ids [1, 2]),
and otherwise it replaces the selection with exactly the eligible ids. -/
theorem C10_selectAll_count_toggle :
    (∀ (keywords : List Keyword) (selectedKeywords : List Nat),
      selectedKeywords.length = (eligibleKeywords keywords).length →
      handleSelectAll keywords selectedKeywords = []) ∧
    (∀ (keywords : List Keyword) (selectedKeywords : List Nat),
      selectedKeywords.length ≠ (eligibleKeywords keywords).length →
      handleSelectAll keywords selectedKeywords =
        (eligibleKeywords keywords).map (fun k => k.id)) ∧
    handleSelectAll [kwA, kwB, kwC] [100, 200] = [] := by
  refine ⟨?_, ?_, by decide⟩
  · intro kws sel h
    simp [handleSelectAll, h]
  · intro kws sel h
    simp [handleSelectAll, h]

/-- C10 witness: the clear branch evaluated with a selection disjoint from
the eligible ids. -/
theorem C10_witness : handleSelectAll [kwA, kwC] [42] = [] :=
  C10_selectAll_count_toggle.1 [kwA, kwC] [42] (by decide)
